import Mathlib

/-!
# Shallow embedding of the DavinciResolveAgent automation core

This file embeds, in Lean 4, the parts of the repository that the verified
claims are about:

* `src/automation/executor.py` — `Action`, `ActionValidator`
  (`ALLOWED_KEYS`, `clamp_drag`, `validate`), and the control flow of
  `ActionExecutor.execute_actions` / `_rollback_actions` / `_execute`;
* `src/controllers/iteration_runner.py` — the `current_state` update loop of
  `IterationRunner.run`;
* `src/controllers/agent_state.py` — `AgentState`, `AgentStateMachine`;
* `src/llm/client.py` — the confidence gate of `LlmClient.request_actions`
  and `LlmClient._normalize_response`;
* `src/vision/metrics.py` — `ConvergenceDetector`;
* `src/calibration/profile.py` — the `targets` table of `CalibrationProfile`.

Numbers that the Python code handles as floats are embedded as rationals
(`Rat`); Python `None` becomes `Option.none`.  GUI side effects (mouse moves,
screenshots, logging, sleeps) have no bearing on the values the claims talk
about and are elided; the externally-settable stop event of the executor is
modelled as an explicit input saying from which loop index on `is_stopped()`
reads true.
-/

namespace DRAgent

/-- A single quote character, used when embedding Python string formatting. -/
def sq : String := String.singleton (Char.ofNat 39)

/-- ASCII lowercasing, embedding Python `str.lower()` on the key names used
by the validator (all ASCII). -/
def strLower (s : String) : String := ⟨s.data.map Char.toLower⟩

/-- Embeds the `Action` dataclass of `src/automation/executor.py`.  The
Python fields `type` and `target` are annotated `str` but may hold `None`
at runtime (the dataclass does not enforce annotations and `validate`
explicitly checks `action.target is None`), so both are `Option String`. -/
structure Action where
  type_ : Option String
  target : Option String
  dx : Option Rat := none
  dy : Option Rat := none
  value : Option Rat := none
  keys : Option (List String) := none
  reason : Option String := none
deriving Repr, DecidableEq

/-- A calibrated screen coordinate, one entry of `CalibrationProfile.targets`
(`src/calibration/profile.py`): a dict `{"x": int, "y": int}`. -/
structure TargetPos where
  x : Int
  y : Int
deriving Repr, DecidableEq

/-- Embeds `CalibrationProfile` (`src/calibration/profile.py`) restricted to
the field the executor reads: the `targets` dict, as an association list. -/
structure CalibrationProfile where
  targets : List (String × TargetPos)
deriving Repr, DecidableEq

/-- `name in calibration.targets` (Python dict key membership). -/
def CalibrationProfile.hasTarget (c : CalibrationProfile) (name : String) : Bool :=
  (c.targets.map Prod.fst).contains name

/-- Embeds `CalibrationProfile.get_target`: `self.targets.get(name)`; the
executor may pass `None` (a dict of string keys never contains it). -/
def CalibrationProfile.get_target (c : CalibrationProfile) (name : Option String) :
    Option TargetPos :=
  match name with
  | none => none
  | some n => c.targets.lookup n

namespace ActionValidator

/-- `ActionValidator.MAX_DX` (`src/automation/executor.py`). -/
def MAX_DX : Rat := 200

/-- `ActionValidator.MAX_DY`. -/
def MAX_DY : Rat := 200

/-- `ActionValidator.ALLOWED_KEYS`: the fixed allow-list of safe keys. -/
def ALLOWED_KEYS : List String :=
  ["ctrl", "alt", "shift", "enter", "backspace", "delete", "esc", "tab",
   "left", "right", "up", "down", "z", "a", "c", "v", "x",
   "1", "2", "3", "4", "5", "6", "7", "8", "9", "0"]

/-- Embeds `ActionValidator.clamp_drag`: bounds `dx`/`dy` into
`[-MAX_DX, MAX_DX]` / `[-MAX_DY, MAX_DY]` when present. -/
def clamp_drag (a : Action) : Action :=
  let a := match a.dx with
    | none => a
    | some v => { a with dx := some (max (-MAX_DX) (min MAX_DX v)) }
  match a.dy with
  | none => a
  | some v => { a with dy := some (max (-MAX_DY) (min MAX_DY v)) }

/-- Embeds `ActionValidator._keys_allowed`:
`set(str(key).lower() for key in keys).issubset(ALLOWED_KEYS)`. -/
def keysAllowed (keys : List String) : Bool :=
  keys.all fun k => ALLOWED_KEYS.contains (strLower k)

/-- Python `repr` of a list of strings, as interpolated into the
"Disallowed key combo" message by the f-string in `validate`. -/
def pyReprKeys (keys : List String) : String :=
  "[" ++ String.intercalate ", " (keys.map fun k => sq ++ k ++ sq) ++ "]"

/-- `not action.keys` in Python: the keys field is `None` or the empty list. -/
def keysFalsy : Option (List String) → Bool
  | none => true
  | some ks => ks.isEmpty

/-- Embeds `ActionValidator.validate`.  `CalibrationProfile` is a plain
dataclass (no `__bool__`/`__len__`), so the Python guard `if calibration`
is exactly a `None` check. -/
def validate (a : Action) (calibration : Option CalibrationProfile) :
    Bool × Option String :=
  if a.type_ = some "drag" then
    match a.target with
    | none => (false, some "E001: Missing target for drag action.")
    | some t =>
      match calibration with
      | some c =>
        if ¬ c.hasTarget t then
          (false, some ("E001: Unknown target " ++ sq ++ t ++ sq ++ "."))
        else (true, none)
      | none => (true, none)
  else if a.type_ = some "keypress" then
    if keysFalsy a.keys then
      (false, some "E002: Missing keys for keypress action.")
    else if ¬ keysAllowed (a.keys.getD []) then
      (false, some ("E002: Disallowed key combo: " ++ pyReprKeys (a.keys.getD []) ++ "."))
    else (true, none)
  else (true, none)

end ActionValidator

/-- A raw action payload (a JSON dict already filtered to the executor's
`allowed_keys`; dropped extra fields only produce a log line).  `hasType` /
`hasTarget` record whether the mandatory dict keys are present at all:
`Action(**payload)` raises exactly when `type` or `target` is missing, while
a present key whose value is JSON `null` parses to a `None` field. -/
structure RawPayload where
  hasType : Bool := true
  type_ : Option String := none
  hasTarget : Bool := true
  target : Option String := none
  dx : Option Rat := none
  dy : Option Rat := none
  value : Option Rat := none
  keys : Option (List String) := none
  reason : Option String := none
deriving Repr, DecidableEq

/-- The parse step of `ActionExecutor.execute_actions`
(`action = Action(**payload)`): fails exactly when the `type` or `target`
key is absent from the payload. -/
def parseAction (r : RawPayload) : Option Action :=
  if r.hasType ∧ r.hasTarget then
    some { type_ := r.type_, target := r.target, dx := r.dx, dy := r.dy,
           value := r.value, keys := r.keys, reason := r.reason }
  else none

/-- `action.keys` truthiness as used by `_execute`
(`if action.type == "keypress" and action.keys`). -/
def keysTruthy : Option (List String) → Bool
  | none => false
  | some ks => ¬ ks.isEmpty

/-- Embeds the result value of `ActionExecutor._execute`
(`src/automation/executor.py:272-381`) on its deterministic skeleton: the
GUI primitives (hotkey, move, drag, click, typewrite) and the screenshot
logging are elided — in this model they succeed.  A keypress with truthy
keys returns `True`; otherwise the target is looked up via
`calibration.get_target` (with `None` when no calibration is given), an
unresolved target is a skip (`False`); a drag returns `True`; a
`set_slider` with a non-`None` value returns `True`; any other type is
skipped with a log message and returns `False`. -/
def execAction (a : Action) (calibration : Option CalibrationProfile) : Bool :=
  if a.type_ = some "keypress" ∧ keysTruthy a.keys then
    true
  else
    match calibration.bind fun c => c.get_target a.target with
    | none => false
    | some _ =>
      if a.type_ = some "drag" then true
      else if a.type_ = some "set_slider" ∧ a.value ≠ none then true
      else false

/-- Embeds `ActionExecutor._rollback_actions`: with `rollback_on_fail` set it
presses undo once per executed action (iterating in reverse; `undo_last`
sends `ctrl+z` and never fails in this model), otherwise it does nothing. -/
def rollbackUndos (executed : List Action) (rollback_on_fail : Bool) : Nat :=
  if rollback_on_fail then executed.length else 0

/-- The observable outcome of one `execute_actions` call: the list returned
(`executed`), the number of undo keystrokes sent by rollback, and the
message of the `ActionExecutionError` raised, when one is. -/
structure ExecOutcome where
  executed : List Action
  undos : Nat
  error : Option String
deriving Repr, DecidableEq

/-- `is_stopped()` at loop index `i`, with the externally-settable stop
event modelled as the index from which on it reads true (`none` = the stop
event is never set during the batch). -/
def isStoppedAt (stopAt : Option Nat) (i : Nat) : Bool :=
  match stopAt with
  | none => false
  | some k => k ≤ i

/-- The per-action loop of `ActionExecutor.execute_actions`
(`src/automation/executor.py:189-258`), carrying the loop index, the
`executed` accumulator, and the undo-keystroke count; the pause wait and
the focus check are elided (focus held, never paused), inter-action sleeps
have no observable effect.  Exception texts interpolated from Python
exception objects are elided from the `E003` message. -/
def executeActionsAux (calibration : Option CalibrationProfile)
    (fail_fast rollback_on_fail : Bool) (stopAt : Option Nat) :
    Nat → List Action → Nat → List RawPayload → ExecOutcome
  | _, executed, undos, [] => ⟨executed, undos, none⟩
  | i, executed, undos, raw :: rest =>
    if isStoppedAt stopAt i then ⟨executed, undos, none⟩
    else
      match parseAction raw with
      | none =>
        if fail_fast then
          ⟨executed, undos + rollbackUndos executed rollback_on_fail,
           some "E003: Failed to parse action payload."⟩
        else
          executeActionsAux calibration fail_fast rollback_on_fail stopAt
            (i + 1) executed undos rest
      | some a0 =>
        let a := ActionValidator.clamp_drag a0
        let vr := ActionValidator.validate a calibration
        if ¬ vr.fst then
          if fail_fast then
            ⟨executed, undos + rollbackUndos executed rollback_on_fail,
             some (vr.snd.getD "E001: Invalid action.")⟩
          else
            executeActionsAux calibration fail_fast rollback_on_fail stopAt
              (i + 1) executed undos rest
        else if execAction a calibration then
          executeActionsAux calibration fail_fast rollback_on_fail stopAt
            (i + 1) (executed ++ [a]) undos rest
        else
          if fail_fast then
            ⟨executed, undos + rollbackUndos executed rollback_on_fail,
             some "E004: Action execution failed."⟩
          else
            executeActionsAux calibration fail_fast rollback_on_fail stopAt
              (i + 1) executed undos rest

/-- Embeds `ActionExecutor.execute_actions` (defaults
`fail_fast=True, rollback_on_fail=True`). -/
def execute_actions (actions : List RawPayload)
    (calibration : Option CalibrationProfile)
    (fail_fast : Bool := true) (rollback_on_fail : Bool := true)
    (stopAt : Option Nat := none) : ExecOutcome :=
  executeActionsAux calibration fail_fast rollback_on_fail stopAt 0 [] 0 actions

/-- `action.get("type")` on a raw payload dict in `IterationRunner.run`:
an absent key reads as `None`, like a present JSON `null`. -/
def rawGetType (r : RawPayload) : Option String :=
  if r.hasType then r.type_ else none

/-- `action.get("target")` on a raw payload dict in `IterationRunner.run`. -/
def rawGetTarget (r : RawPayload) : Option String :=
  if r.hasTarget then r.target else none

/-- `target in current_state` (dict key membership). -/
def containsKey (st : List (String × Rat)) (k : String) : Bool :=
  (st.map Prod.fst).contains k

/-- `current_state[k] = v` on an existing key: Python dict assignment keeps
insertion order and replaces the value in place. -/
def setKey (st : List (String × Rat)) (k : String) (v : Rat) : List (String × Rat) :=
  st.map fun p => if p.fst = k then (k, v) else p

/-- Embeds the `current_state` update loop of `IterationRunner.run`
(`src/controllers/iteration_runner.py:89-91`): for every action dict in the
response whose `type` is `"set_slider"` and whose `target` is already a key
of `current_state`, assign `current_state[target] = action["value"]`.  The
loop runs over the *proposed* actions of the response — the list of executed
actions returned by `execute_actions` is discarded at the call site.  The
Bool result records whether `action["value"]` raised a `KeyError` (value key
absent), which aborts the loop leaving earlier assignments in place. -/
def updateCurrentState : List (String × Rat) → List RawPayload →
    List (String × Rat) × Bool
  | st, [] => (st, false)
  | st, r :: rest =>
    match rawGetTarget r with
    | some t =>
      if rawGetType r = some "set_slider" ∧ containsKey st t then
        match r.value with
        | some v => updateCurrentState (setKey st t v) rest
        | none => (st, true)
      else updateCurrentState st rest
    | none => updateCurrentState st rest

/-- Embeds the `AgentState` enum (`src/controllers/agent_state.py`). -/
inductive AgentState where
  | IDLE
  | CONFIGURING
  | CALIBRATING
  | READY
  | RUNNING
  | PAUSED
  | STOPPED
  | ERROR
deriving Repr, DecidableEq, Fintype

/-- `state.name` of the Python enum member. -/
def AgentState.name : AgentState → String
  | .IDLE => "IDLE"
  | .CONFIGURING => "CONFIGURING"
  | .CALIBRATING => "CALIBRATING"
  | .READY => "READY"
  | .RUNNING => "RUNNING"
  | .PAUSED => "PAUSED"
  | .STOPPED => "STOPPED"
  | .ERROR => "ERROR"

/-- Embeds `AgentStateMachine.VALID_TRANSITIONS`. -/
def VALID_TRANSITIONS : AgentState → List AgentState
  | .IDLE => [.CONFIGURING, .CALIBRATING, .READY]
  | .CONFIGURING => [.READY, .IDLE]
  | .CALIBRATING => [.READY, .IDLE]
  | .READY => [.RUNNING, .CONFIGURING, .CALIBRATING]
  | .RUNNING => [.PAUSED, .STOPPED, .ERROR, .READY]
  | .PAUSED => [.RUNNING, .STOPPED, .ERROR]
  | .STOPPED => [.READY, .IDLE]
  | .ERROR => [.IDLE, .READY]

/-- Embeds `AgentStateMachine` (field `_state`). -/
structure AgentStateMachine where
  state : AgentState
deriving Repr, DecidableEq

/-- Embeds `AgentStateMachine.can_transition`. -/
def AgentStateMachine.can_transition (m : AgentStateMachine) (target : AgentState) : Bool :=
  (VALID_TRANSITIONS m.state).contains target

/-- Embeds `AgentStateMachine.transition`: on a legal target the state is
replaced, otherwise a `ValueError` carrying both state names is raised and
the machine is left untouched (the pair's second component is the raised
error message, `none` on success). -/
def AgentStateMachine.transition (m : AgentStateMachine) (target : AgentState) :
    AgentStateMachine × Option String :=
  if m.can_transition target then ({ state := target }, none)
  else (m, some ("Invalid transition: " ++ m.state.name ++ " -> " ++ target.name))

/-- The normalized, schema-validated model response as `request_actions`
reads it after `_validate` (`src/llm/client.py`): `summary` a string,
`actions` a list of action dicts, `stop` a boolean, `confidence` a number. -/
structure NormResponse where
  summary : String
  actions : List RawPayload
  stop : Bool
  confidence : Rat
deriving Repr, DecidableEq

/-- Embeds the `LlmResponse` dataclass (`src/llm/client.py`). -/
structure LlmResponse where
  raw : NormResponse
  actions : List RawPayload
  stop : Bool
  confidence : Rat
deriving Repr, DecidableEq

/-- The default of the `min_confidence` constructor parameter of
`LlmClient` (0.3), the fixed minimum confidence threshold. -/
def min_confidence_default : Rat := 3 / 10

/-- Embeds the confidence gate of `LlmClient.request_actions`
(`src/llm/client.py:122-135`): build the `LlmResponse` from the normalized,
schema-valid dict; when its confidence is below `min_confidence` return a
response with the same raw dict and confidence but no actions and
`stop=True`, otherwise return it unchanged. -/
def request_actions_gate (min_confidence : Rat) (normalized : NormResponse) :
    LlmResponse :=
  let llm_response : LlmResponse :=
    ⟨normalized, normalized.actions, normalized.stop, normalized.confidence⟩
  if llm_response.confidence < min_confidence then
    ⟨normalized, [], true, llm_response.confidence⟩
  else
    llm_response

/-- Embeds the `SimilarityMetrics` dataclass (`src/vision/metrics.py`),
without the unused `ui_saturation` placeholder. -/
structure SimilarityMetrics where
  ssim : Rat
  histogram : Rat
  delta_e : Rat
  overall : Rat
deriving Repr, DecidableEq

/-- Embeds `ConvergenceDetector.__init__` defaults
(`window_size=5, threshold=0.001`). -/
structure ConvergenceDetector where
  history : List Rat := []
  window_size : Nat := 5
  threshold : Rat := 1 / 1000
deriving Repr, DecidableEq

/-- `max` of a Python list (defined on nonempty input; `add` only takes it
on a nonempty slice). -/
def listMax : List Rat → Rat
  | [] => 0
  | x :: xs => xs.foldl max x

/-- `min` of a Python list (defined on nonempty input). -/
def listMin : List Rat → Rat
  | [] => 0
  | x :: xs => xs.foldl min x

/-- The Python slice `l[-n:]`: the last `n` elements, the whole list when
`n = 0` (since `l[-0:] = l[0:]`). -/
def sliceLast (l : List Rat) (n : Nat) : List Rat :=
  if n = 0 then l else l.drop (l.length - n)

/-- Embeds `ConvergenceDetector.add` (`src/vision/metrics.py:45-51`):
append the `overall` score to the history, answer `False` while fewer than
`window_size` scores were ever added, otherwise compare the spread of the
last `window_size` scores against the threshold. -/
def ConvergenceDetector.add (d : ConvergenceDetector) (metrics : SimilarityMetrics) :
    ConvergenceDetector × Bool :=
  let h := d.history ++ [metrics.overall]
  let d' := { d with history := h }
  if h.length < d.window_size then (d', false)
  else
    let recent := sliceLast h d.window_size
    (d', decide (listMax recent - listMin recent < d.threshold))

/-- A sequence of `add` calls, keeping the detector state. -/
def ConvergenceDetector.addAll (d : ConvergenceDetector)
    (ms : List SimilarityMetrics) : ConvergenceDetector :=
  ms.foldl (fun d m => (d.add m).fst) d

/-- A JSON value as produced by `json.loads` in `src/llm/client.py`.
`null` doubles as Python `None`: `json.loads` maps JSON null to `None`,
and `dict.get` on an absent key also yields `None`. -/
inductive JVal where
  | null
  | bool (b : Bool)
  | num (q : Rat)
  | str (s : String)
  | arr (items : List JVal)
  | obj (fields : List (String × JVal))

/-- `key in d` on a Python dict. -/
def jMem : List (String × JVal) → String → Bool
  | [], _ => false
  | (k, _) :: rest, key => if k = key then true else jMem rest key

/-- Raw lookup in a dict's field list (first match). -/
def jGet : List (String × JVal) → String → Option JVal
  | [], _ => none
  | (k, v) :: rest, key => if k = key then some v else jGet rest key

/-- `d.get(key)` on a Python dict: an absent key reads as `None`. -/
def pyGet (kvs : List (String × JVal)) (key : String) : JVal :=
  (jGet kvs key).getD .null

/-- Python truthiness of a JSON value. -/
def jTruthy : JVal → Bool
  | .null => false
  | .bool b => b
  | .num q => q ≠ 0
  | .str s => s ≠ ""
  | .arr items => ¬ items.isEmpty
  | .obj fields => ¬ fields.isEmpty

/-- Python `a or b`. -/
def pyOr (a b : JVal) : JVal :=
  if jTruthy a then a else b

/-- Python `v == "s"` for a string literal: only a string compares equal. -/
def jEqStr (v : JVal) (s : String) : Bool :=
  match v with
  | .str t => t = s
  | _ => false

/-- Python `str()`.  Only the string case is exercised by the
normalization paths the claims touch; the representations of the other
cases are schematic. -/
def pyStr : JVal → String
  | .str s => s
  | .null => "None"
  | .bool b => if b then "True" else "False"
  | .num q => toString q
  | .arr _ => "[...]"
  | .obj _ => "\x7b...\x7d"

/-- `d[k] = v` on a Python dict: replace in place if the key exists,
else append (insertion order preserved). -/
def objSet (kvs : List (String × JVal)) (k : String) (v : JVal) :
    List (String × JVal) :=
  if jMem kvs k then kvs.map fun p => if p.fst = k then (k, v) else p
  else kvs ++ [(k, v)]

/-- All-digit character run to a natural number (empty run = 0). -/
def digitsToNatAux : List Char → Nat → Option Nat
  | [], acc => some acc
  | c :: cs, acc =>
    if c.isDigit then digitsToNatAux cs (acc * 10 + (c.toNat - 48))
    else none

/-- The plain decimal forms accepted by Python `float(str)`:
`[+-] digits [. digits]` with at least one digit (exponent and inf/nan
forms, which the normalizer never receives, are not modelled). -/
def parseDecimal (s : String) : Option Rat :=
  let cs := s.toList
  let signed : Bool × List Char :=
    match cs with
    | c :: rest =>
      if c = Char.ofNat 45 then (true, rest)
      else if c = Char.ofNat 43 then (false, rest)
      else (false, cs)
    | [] => (false, [])
  let neg := signed.fst
  let cs1 := signed.snd
  let intPart := cs1.takeWhile Char.isDigit
  let rest2 := cs1.dropWhile Char.isDigit
  match rest2 with
  | [] =>
    if intPart.isEmpty then none
    else (digitsToNatAux intPart 0).map fun n =>
      if neg then -(n : Rat) else (n : Rat)
  | c :: frac =>
    if c = Char.ofNat 46 ∧ frac.all Char.isDigit ∧
        ¬ (intPart.isEmpty ∧ frac.isEmpty) then
      match digitsToNatAux intPart 0, digitsToNatAux frac 0 with
      | some ip, some fp =>
        let mag : Rat := (ip : Rat) + (fp : Rat) / ((10 : Rat) ^ frac.length)
        some (if neg then -mag else mag)
      | _, _ => none
    else none

/-- Python `float()` on a JSON value: numbers pass through, booleans count
as 0/1, strings are parsed (`ValueError` otherwise), anything else is a
`TypeError`. -/
def pyFloat : JVal → Except String Rat
  | .num q => .ok q
  | .bool b => .ok (if b then 1 else 0)
  | .str s =>
    match parseDecimal s with
    | some q => .ok q
    | none => .error "ValueError: could not convert string to float"
  | _ => .error "TypeError: float() argument"

/-- `params.get(key)`: raises `AttributeError` when `params` is not a
dict. -/
def paramsGet : JVal → String → Except String JVal
  | .obj kvs, key => .ok (pyGet kvs key)
  | _, _ => .error "AttributeError: object has no attribute get"

/-- `key in params`: raises `TypeError` when `params` is not a dict. -/
def jMemE : JVal → String → Except String Bool
  | .obj kvs, key => .ok (jMem kvs key)
  | _, _ => .error "TypeError: argument is not iterable"

/-- Python `a - b` inside `float(end["x"] - start["x"])`: numbers (and
booleans as 0/1) subtract, anything else is a `TypeError`. -/
def jSub : JVal → JVal → Except String Rat
  | .num a, .num b => .ok (a - b)
  | .num a, .bool b => .ok (a - (if b then 1 else 0))
  | .bool a, .num b => .ok ((if a then 1 else 0) - b)
  | .bool a, .bool b => .ok ((if a then 1 else 0) - (if b then 1 else 0))
  | _, _ => .error "TypeError: unsupported operand types"

/-- The body of the `for raw_action in actions` loop of
`LlmClient._normalize_response` (`src/llm/client.py:284-328`) for one
dict-shaped raw action with fields `akvs`. -/
def normalizeAction (akvs : List (String × JVal)) : Except String JVal := do
  let action_type := pyOr (pyGet akvs "type") (pyGet akvs "action")
  let params := pyOr (pyGet akvs "params") (pyOr (pyGet akvs "parameters") (.obj []))
  let reason := pyOr (pyGet akvs "reason")
    (pyOr (pyGet akvs "justification") (.str "Auto-converted from legacy action format."))
  let base : List (String × JVal) :=
    [("type", action_type), ("target", .str ""), ("reason", reason)]
  let normalized ←
    if jEqStr action_type "set_slider" then do
      let slider ← paramsGet params "slider"
      let slider := pyOr slider (pyGet akvs "target")
      let n := objSet base "target" (.str (pyStr (pyOr slider (.str "unknown"))))
      let value ← paramsGet params "value"
      let value := match value with
        | .null => pyGet akvs "value"
        | v => v
      match value with
      | .null => pure n
      | v => do
        let q ← pyFloat v
        pure (objSet n "value" (.num q))
    else if jEqStr action_type "drag" then do
      let n := objSet base "target" (pyOr (pyGet akvs "target") (.str "canvas"))
      let start ← paramsGet params "start"
      let start := pyOr start (.obj [])
      let stop ← paramsGet params "end"
      let stop := pyOr stop (.obj [])
      let n ←
        match start, stop with
        | .obj skvs, .obj ekvs => do
          let n ←
            if jMem skvs "x" ∧ jMem ekvs "x" then do
              let d ← jSub (pyGet ekvs "x") (pyGet skvs "x")
              pure (objSet n "dx" (.num d))
            else pure n
          if jMem skvs "y" ∧ jMem ekvs "y" then do
            let d ← jSub (pyGet ekvs "y") (pyGet skvs "y")
            pure (objSet n "dy" (.num d))
          else pure n
        | _, _ => pure n
      let n ←
        if (← jMemE params "dx") then do
          let v ← paramsGet params "dx"
          let q ← pyFloat v
          pure (objSet n "dx" (.num q))
        else pure n
      if (← jMemE params "dy") then do
        let v ← paramsGet params "dy"
        let q ← pyFloat v
        pure (objSet n "dy" (.num q))
      else pure n
    else if jEqStr action_type "keypress" then do
      let n := objSet base "target" (pyOr (pyGet akvs "target") (.str "keyboard"))
      let keys ← paramsGet params "keys"
      let keys := pyOr keys (pyGet akvs "keys")
      match keys with
      | .arr ks => pure (objSet n "keys" (.arr (ks.map fun k => .str (pyStr k))))
      | _ => pure n
    else
      pure (objSet base "target" (pyOr (pyGet akvs "target") (.str "unknown")))
  if jTruthy (pyGet normalized "type") then .ok (.obj normalized)
  else .error "Action type missing in LLM response."

/-- The loop of `_normalize_response` over the actions list: non-dict
entries are skipped, errors abort the whole call. -/
def normalizeActions : List JVal → Except String (List JVal)
  | [] => .ok []
  | item :: rest =>
    match item with
    | .obj akvs => do
      let n ← normalizeAction akvs
      let ns ← normalizeActions rest
      .ok (n :: ns)
    | _ => normalizeActions rest

/-- Embeds `LlmClient._normalize_response` (`src/llm/client.py:270-335`):
a response that already has all four canonical keys passes through;
otherwise the legacy shapes are normalized — a lone `action` object stands
for a one-element list — and the top-level fields are defaulted
(`summary` → a generic string, `stop` → `False`, `confidence` → `0.5`). -/
def normalize_response (data : JVal) : Except String JVal :=
  match data with
  | .obj kvs =>
    if jMem kvs "summary" ∧ jMem kvs "actions" ∧ jMem kvs "stop" ∧
        jMem kvs "confidence" then
      .ok data
    else
      let actionsV : JVal :=
        match pyGet kvs "actions" with
        | .null => if jMem kvs "action" then .arr [data] else .null
        | v => v
      match actionsV with
      | .arr items => do
        let normActs ← normalizeActions items
        let conf ←
          if jMem kvs "confidence" then pyFloat (pyGet kvs "confidence")
          else .ok ((1 : Rat) / 2)
        .ok (.obj
          [("summary", pyOr (pyGet kvs "summary") (.str "Auto-normalized response.")),
           ("actions", .arr normActs),
           ("stop", .bool (jTruthy (pyGet kvs "stop"))),
           ("confidence", .num conf)])
      | _ => .error "LLM response missing actions list."
  | _ => .error "LLM response must be a JSON object."

/-- C8: `clamp_drag` maps present `dx`/`dy` values into `[-200, 200]`:
each is replaced by `max (-200) (min 200 v)`, so in-range values pass
unchanged and out-of-range magnitudes land on the nearest bound; every
clamped component lies in `[-200, 200]`. -/
theorem clamp_drag_bounds (a : Action) :
    (∀ v : Rat, a.dx = some v →
      (ActionValidator.clamp_drag a).dx = some (max (-200) (min 200 v)) ∧
      (-200 ≤ v → v ≤ 200 → (ActionValidator.clamp_drag a).dx = some v)) ∧
    (∀ v : Rat, a.dy = some v →
      (ActionValidator.clamp_drag a).dy = some (max (-200) (min 200 v)) ∧
      (-200 ≤ v → v ≤ 200 → (ActionValidator.clamp_drag a).dy = some v)) ∧
    (∀ w : Rat, (ActionValidator.clamp_drag a).dx = some w → -200 ≤ w ∧ w ≤ 200) ∧
    (∀ w : Rat, (ActionValidator.clamp_drag a).dy = some w → -200 ≤ w ∧ w ≤ 200) := by
  have hmem : ∀ v : Rat, -200 ≤ max (-200) (min 200 v) ∧ max (-200) (min 200 v) ≤ 200 := by
    intro v
    exact ⟨le_max_left _ _, max_le (by norm_num) (min_le_left _ _)⟩
  have hid : ∀ v : Rat, -200 ≤ v → v ≤ 200 → max (-200) (min 200 v) = v := by
    intro v h1 h2
    rw [min_eq_right h2, max_eq_right h1]
  have hx : ∀ v : Rat, a.dx = some v →
      (ActionValidator.clamp_drag a).dx = some (max (-200) (min 200 v)) := by
    intro v h
    cases hdy : a.dy <;>
      simp [ActionValidator.clamp_drag, h, hdy,
        ActionValidator.MAX_DX, ActionValidator.MAX_DY]
  have hxn : a.dx = none → (ActionValidator.clamp_drag a).dx = none := by
    intro h
    cases hdy : a.dy <;>
      simp [ActionValidator.clamp_drag, h, hdy,
        ActionValidator.MAX_DX, ActionValidator.MAX_DY]
  have hy : ∀ v : Rat, a.dy = some v →
      (ActionValidator.clamp_drag a).dy = some (max (-200) (min 200 v)) := by
    intro v h
    cases hdx : a.dx <;>
      simp [ActionValidator.clamp_drag, h, hdx,
        ActionValidator.MAX_DX, ActionValidator.MAX_DY]
  have hyn : a.dy = none → (ActionValidator.clamp_drag a).dy = none := by
    intro h
    cases hdx : a.dx <;>
      simp [ActionValidator.clamp_drag, h, hdx,
        ActionValidator.MAX_DX, ActionValidator.MAX_DY]
  refine ⟨?_, ?_, ?_, ?_⟩
  · intro v h
    exact ⟨hx v h, fun h1 h2 => (hx v h).trans (by rw [hid v h1 h2])⟩
  · intro v h
    exact ⟨hy v h, fun h1 h2 => (hy v h).trans (by rw [hid v h1 h2])⟩
  · intro w hw
    cases h : a.dx with
    | none => rw [hxn h] at hw; cases hw
    | some v =>
      rw [hx v h] at hw
      cases hw
      exact hmem v
  · intro w hw
    cases h : a.dy with
    | none => rw [hyn h] at hw; cases hw
    | some v =>
      rw [hy v h] at hw
      cases hw
      exact hmem v

/-- Witness for C8 on the spec's example: a drag with `dx=500, dy=-500`
is clamped to `dx=200, dy=-200`. -/
theorem clamp_drag_bounds_witness :
    (ActionValidator.clamp_drag
      { type_ := some "drag", target := some "t", dx := some 500, dy := some (-500) }).dx
        = some 200 ∧
    (ActionValidator.clamp_drag
      { type_ := some "drag", target := some "t", dx := some 500, dy := some (-500) }).dy
        = some (-200) := by
  have h := clamp_drag_bounds
    { type_ := some "drag", target := some "t", dx := some 500, dy := some (-500) }
  refine ⟨((h.1 500 rfl).1).trans (by norm_num), ((h.2.1 (-500) rfl).1).trans (by norm_num)⟩

/-- C5: the confidence gate of `request_actions`: any schema-valid
normalized response whose confidence is below the threshold comes back
with an empty actions list, `stop=true`, and the reported confidence
(raw dict preserved); at or above the threshold the response is returned
with its actions, stop flag, and confidence intact. -/
theorem confidence_gate (min_confidence : Rat) (n : NormResponse) :
    (n.confidence < min_confidence →
      request_actions_gate min_confidence n =
        { raw := n, actions := [], stop := true, confidence := n.confidence }) ∧
    (min_confidence ≤ n.confidence →
      request_actions_gate min_confidence n =
        { raw := n, actions := n.actions, stop := n.stop, confidence := n.confidence }) := by
  constructor
  · intro h
    simp [request_actions_gate, h]
  · intro h
    simp [request_actions_gate, not_lt.mpr h]

/-- Witness for C5: with the default threshold 0.3, a confidence of 0.1
is gated to no actions and `stop=true`, and a confidence of 0.9 passes
through. -/
theorem confidence_gate_witness :
    request_actions_gate min_confidence_default
        { summary := "s", actions := [{ type_ := some "set_slider" }],
          stop := false, confidence := 1 / 10 } =
      { raw := { summary := "s", actions := [{ type_ := some "set_slider" }],
                 stop := false, confidence := 1 / 10 },
        actions := [], stop := true, confidence := 1 / 10 } ∧
    request_actions_gate min_confidence_default
        { summary := "s", actions := [{ type_ := some "set_slider" }],
          stop := false, confidence := 9 / 10 } =
      { raw := { summary := "s", actions := [{ type_ := some "set_slider" }],
                 stop := false, confidence := 9 / 10 },
        actions := [{ type_ := some "set_slider" }], stop := false,
        confidence := 9 / 10 } := by
  constructor
  · exact (confidence_gate min_confidence_default _).1 (by norm_num [min_confidence_default])
  · exact (confidence_gate min_confidence_default _).2 (by norm_num [min_confidence_default])

/-- Counterexample to C9: the detector's history is not bounded by the
window size — after six `add` calls on a default detector (window 5) the
history holds six scores, since `add` appends and never evicts. -/
theorem history_bounded_cex :
    (ConvergenceDetector.addAll {}
        (List.replicate 6 { ssim := 1, histogram := 1, delta_e := 1, overall := 1 / 2 })).window_size = 5 ∧
    (ConvergenceDetector.addAll {}
        (List.replicate 6 { ssim := 1, histogram := 1, delta_e := 1, overall := 1 / 2 })).history.length = 6 := by
  constructor <;> rfl

/-- C9 (amended): the history is append-only: a sequence of `add` calls
appends each `overall` score in order and never evicts, so the history
holds exactly one score per call ever made (only the convergence decision
restricts itself to the last `window_size` entries). -/
theorem history_append_only (d : ConvergenceDetector) (ms : List SimilarityMetrics) :
    (d.addAll ms).history = d.history ++ ms.map SimilarityMetrics.overall ∧
    (d.addAll ms).history.length = d.history.length + ms.length := by
  induction ms generalizing d with
  | nil => simp [ConvergenceDetector.addAll]
  | cons m rest ih =>
    have hstep : ((d.add m).fst).history = d.history ++ [m.overall] := by
      simp only [ConvergenceDetector.add]
      split <;> rfl
    have h := (ih (d.add m).fst).1
    constructor
    · simp [ConvergenceDetector.addAll] at h ⊢
      rw [h, hstep, List.append_assoc]
      rfl
    · have h2 := (ih (d.add m).fst).2
      simp [ConvergenceDetector.addAll] at h2 ⊢
      rw [h2, hstep]
      simp [Nat.add_comm, Nat.add_assoc]
      omega

/-- Modelled from the spec: the list of legal transitions exactly as the
spec sentence enumerates them (`IDLE → {CONFIGURING, CALIBRATING, READY}`;
`CONFIGURING → {READY, IDLE}`; `CALIBRATING → {READY, IDLE}`;
`READY → {RUNNING, CONFIGURING, CALIBRATING}`;
`RUNNING → {PAUSED, STOPPED, ERROR, READY}`;
`PAUSED → {RUNNING, STOPPED, ERROR}`; `STOPPED → {READY, IDLE}`;
`ERROR → {IDLE, READY}`), stated independently of
`VALID_TRANSITIONS` for comparison against the code. -/
def specLegalTransitions : List (AgentState × AgentState) :=
  [(.IDLE, .CONFIGURING), (.IDLE, .CALIBRATING), (.IDLE, .READY),
   (.CONFIGURING, .READY), (.CONFIGURING, .IDLE),
   (.CALIBRATING, .READY), (.CALIBRATING, .IDLE),
   (.READY, .RUNNING), (.READY, .CONFIGURING), (.READY, .CALIBRATING),
   (.RUNNING, .PAUSED), (.RUNNING, .STOPPED), (.RUNNING, .ERROR), (.RUNNING, .READY),
   (.PAUSED, .RUNNING), (.PAUSED, .STOPPED), (.PAUSED, .ERROR),
   (.STOPPED, .READY), (.STOPPED, .IDLE),
   (.ERROR, .IDLE), (.ERROR, .READY)]

/-- C6: `AgentStateMachine.transition` succeeds (moving to the target)
exactly on the transitions the spec lists; on every other pair it raises
an error and leaves the state unchanged, and the raised messages are
distinct across distinct illegal pairs (never silently ignored or
conflated). -/
theorem agent_transitions_exact (s t : AgentState) :
    ((AgentStateMachine.mk s).transition t = ({ state := t }, none) ↔
      (s, t) ∈ specLegalTransitions) ∧
    ((s, t) ∉ specLegalTransitions →
      ((AgentStateMachine.mk s).transition t).fst = { state := s } ∧
      ((AgentStateMachine.mk s).transition t).snd.isSome) ∧
    (∀ u w : AgentState,
      ((s, t) ∉ specLegalTransitions ∧ (u, w) ∉ specLegalTransitions ∧
        ((AgentStateMachine.mk s).transition t).snd =
          ((AgentStateMachine.mk u).transition w).snd) →
      s = u ∧ t = w) := by
  revert s t
  decide

/-- Witness for C6: `IDLE → READY` succeeds; `RUNNING → IDLE` is rejected
with the state left at `RUNNING`. -/
theorem agent_transitions_exact_witness :
    (AgentStateMachine.mk .IDLE).transition .READY = ({ state := .READY }, none) ∧
    ((AgentStateMachine.mk .RUNNING).transition .IDLE).fst = { state := .RUNNING } ∧
    ((AgentStateMachine.mk .RUNNING).transition .IDLE).snd.isSome := by
  refine ⟨(agent_transitions_exact .IDLE .READY).1.mpr (by decide), ?_⟩
  exact (agent_transitions_exact .RUNNING .IDLE).2.1 (by decide)

/-- C7: normalizing the legacy single-action shape
`{action: "set_slider", params: {slider: "lift", value: "0.5"}, reason: "legacy"}`
yields the canonical response whose only action has type `"set_slider"`,
target `"lift"`, the string value coerced to the number 0.5, and reason
`"legacy"`, with the missing top-level fields defaulted to
`summary = "Auto-normalized response."`, `stop = false`,
`confidence = 0.5`. -/
theorem normalize_legacy_set_slider :
    normalize_response (.obj
      [("action", .str "set_slider"),
       ("params", .obj [("slider", .str "lift"), ("value", .str "0.5")]),
       ("reason", .str "legacy")]) =
    .ok (.obj
      [("summary", .str "Auto-normalized response."),
       ("actions", .arr
         [.obj [("type", .str "set_slider"), ("target", .str "lift"),
                ("reason", .str "legacy"), ("value", .num (1 / 2))]]),
       ("stop", .bool false),
       ("confidence", .num (1 / 2))]) := by
  norm_num +decide [normalize_response, normalizeActions,
    normalizeAction, jMem, jGet, pyGet, jTruthy, pyOr, jEqStr, pyStr, objSet,
    digitsToNatAux, parseDecimal, pyFloat, paramsGet, jMemE, jSub,
    Bind.bind, Except.bind, Pure.pure, Except.pure, Except.instMonad]
  norm_num [show ( '5'.toNat : Nat) = 53 from rfl]

/-- Helper: on a keypress action the validity bit of `validate` is the
conjunction of a truthy keys field and an allow-listed combo. -/
lemma validate_keypress_fst (a : Action) (cal : Option CalibrationProfile)
    (htype : a.type_ = some "keypress") :
    (ActionValidator.validate a cal).fst =
      (! ActionValidator.keysFalsy a.keys &&
        ActionValidator.keysAllowed (a.keys.getD [])) := by
  cases hfal : ActionValidator.keysFalsy a.keys <;>
    cases hall : ActionValidator.keysAllowed (a.keys.getD []) <;>
    simp [ActionValidator.validate, htype, hfal, hall]

/-- C1: `validate` on a keypress action succeeds exactly when the `keys`
list is present, non-empty, and every key lowercases into the fixed
allow-list; otherwise it fails with an `E002` error — in particular
`keys=["alt","f4"]` fails with the "Disallowed key combo" reason. -/
theorem keypress_validation_allowlist (a : Action) (cal : Option CalibrationProfile)
    (htype : a.type_ = some "keypress") :
    ((ActionValidator.validate a cal).fst = true ↔
      ∃ ks, a.keys = some ks ∧ ks ≠ [] ∧
        ∀ k ∈ ks, ActionValidator.ALLOWED_KEYS.contains (strLower k)) ∧
    (a.keys = some ["alt", "f4"] →
      ActionValidator.validate a cal =
        (false, some ("E002: Disallowed key combo: " ++
          ActionValidator.pyReprKeys ["alt", "f4"] ++ "."))) := by
  constructor
  · rw [validate_keypress_fst a cal htype]
    constructor
    · intro h
      rw [Bool.and_eq_true, Bool.not_eq_true'] at h
      cases hk : a.keys with
      | none => rw [hk] at h; exact absurd h.1 (by simp [ActionValidator.keysFalsy])
      | some ks =>
        refine ⟨ks, rfl, ?_, ?_⟩
        · intro he
          rw [hk, he] at h
          exact absurd h.1 (by simp [ActionValidator.keysFalsy])
        · have h2 := h.2
          rw [hk] at h2
          simpa [ActionValidator.keysAllowed, List.all_eq_true] using h2
    · rintro ⟨ks, hks, hne, hall⟩
      rw [hks]
      simp [ActionValidator.keysFalsy, hne, ActionValidator.keysAllowed,
        List.all_eq_true]
      intro x hx
      have := hall x hx
      simpa using this
  · intro hk
    simp +decide [ActionValidator.validate, htype, ActionValidator.keysFalsy, hk]

/-- Witness for C1: the keypress with `keys=["alt","f4"]` is rejected with
the disallowed-combo `E002` message, and one with `keys=["ctrl","z"]`
passes the check. -/
theorem keypress_validation_allowlist_witness :
    ActionValidator.validate
        { type_ := some "keypress", target := some "keyboard",
          keys := some ["alt", "f4"] } none =
      (false, some ("E002: Disallowed key combo: " ++
        ActionValidator.pyReprKeys ["alt", "f4"] ++ ".")) ∧
    (ActionValidator.validate
        { type_ := some "keypress", target := some "keyboard",
          keys := some ["ctrl", "z"] } none).fst = true := by
  constructor
  · exact (keypress_validation_allowlist
      { type_ := some "keypress", target := some "keyboard",
        keys := some ["alt", "f4"] } none rfl).2 rfl
  · exact (keypress_validation_allowlist
      { type_ := some "keypress", target := some "keyboard",
        keys := some ["ctrl", "z"] } none rfl).1.mpr
      ⟨["ctrl", "z"], rfl, by decide, by decide⟩

/-- C10: on a drag action, `validate` passes exactly when a target is
present and, in case a calibration is supplied, known to it; with
`calibration=None` the existence check is skipped, so any non-null target
passes; the `E001` errors are raised exactly for a null target or for a
target a supplied calibration does not know. -/
theorem drag_validation_target_check (a : Action) (cal : Option CalibrationProfile)
    (htype : a.type_ = some "drag") :
    ((ActionValidator.validate a cal).fst = true ↔
      ∃ t, a.target = some t ∧ ∀ c, cal = some c → c.hasTarget t = true) ∧
    (a.target = none →
      ActionValidator.validate a cal =
        (false, some "E001: Missing target for drag action.")) ∧
    (∀ t, a.target = some t → cal = none →
      ActionValidator.validate a cal = (true, none)) ∧
    (∀ t c, a.target = some t → cal = some c → c.hasTarget t = false →
      ActionValidator.validate a cal =
        (false, some ("E001: Unknown target " ++ sq ++ t ++ sq ++ "."))) := by
  refine ⟨?_, ?_, ?_, ?_⟩
  · cases ht : a.target with
    | none => simp [ActionValidator.validate, htype, ht]
    | some t =>
      cases hc : cal with
      | none => simp [ActionValidator.validate, htype, ht, hc]
      | some c =>
        by_cases hmem : c.hasTarget t = true
        · simp [ActionValidator.validate, htype, ht, hc, hmem]
        · simp [ActionValidator.validate, htype, ht, hc, hmem]
  · intro ht
    simp [ActionValidator.validate, htype, ht]
  · intro t ht hc
    simp [ActionValidator.validate, htype, ht, hc]
  · intro t c ht hc hmem
    simp [ActionValidator.validate, htype, ht, hc, hmem]

/-- Witness for C10: with no calibration, a drag whose target is unknown
to every calibration still validates; with a calibration lacking the
target, the same drag fails with the unknown-target `E001`; a drag with a
null target fails with the missing-target `E001`. -/
theorem drag_validation_target_check_witness :
    ActionValidator.validate
        { type_ := some "drag", target := some "mystery", dx := some 5 } none =
      (true, none) ∧
    ActionValidator.validate
        { type_ := some "drag", target := some "mystery", dx := some 5 }
        (some { targets := [("lift", { x := 1, y := 2 })] }) =
      (false, some ("E001: Unknown target " ++ sq ++ "mystery" ++ sq ++ ".")) ∧
    ActionValidator.validate
        { type_ := some "drag", target := none, dx := some 5 } none =
      (false, some "E001: Missing target for drag action.") := by
  refine ⟨?_, ?_, ?_⟩
  · exact (drag_validation_target_check
      { type_ := some "drag", target := some "mystery", dx := some 5 } none
      rfl).2.2.1 "mystery" rfl rfl
  · exact (drag_validation_target_check
      { type_ := some "drag", target := some "mystery", dx := some 5 }
      (some { targets := [("lift", { x := 1, y := 2 })] }) rfl).2.2.2
      "mystery" { targets := [("lift", { x := 1, y := 2 })] } rfl rfl (by decide)
  · exact (drag_validation_target_check
      { type_ := some "drag", target := none, dx := some 5 } none rfl).2.1 rfl

/-- Helper: clamping never changes the action's type. -/
lemma clamp_drag_type (a : Action) :
    (ActionValidator.clamp_drag a).type_ = a.type_ := by
  cases h1 : a.dx <;> cases h2 : a.dy <;>
    simp [ActionValidator.clamp_drag, h1, h2]

/-- Helper: `validate` passes any action that is neither a drag nor a
keypress (it has no checks for other types). -/
lemma validate_other_types (a : Action) (cal : Option CalibrationProfile)
    (hd : a.type_ ≠ some "drag") (hk : a.type_ ≠ some "keypress") :
    ActionValidator.validate a cal = (true, none) := by
  simp [ActionValidator.validate, hd, hk]

/-- Helper: `_execute` reports failure on every action whose type is none
of drag, set_slider, keypress (regardless of target resolution). -/
lemma execAction_unsupported (a : Action) (cal : Option CalibrationProfile)
    (hd : a.type_ ≠ some "drag") (hs : a.type_ ≠ some "set_slider")
    (hk : a.type_ ≠ some "keypress") :
    execAction a cal = false := by
  cases hm : cal.bind fun c => c.get_target a.target <;>
    simp [execAction, hd, hs, hk, hm]

/-- C2: with `fail_fast=true` and `rollback_on_fail=true`, a batch of two
actions whose first parses, validates, and executes successfully while the
second fails (at parse, validation, or execution) triggers exactly one
undo keystroke — one per already-executed action — and raises a fatal
`ActionExecutionError`. -/
theorem rollback_two_actions (cal : Option CalibrationProfile)
    (r1 r2 : RawPayload) (a1 : Action)
    (hp1 : parseAction r1 = some a1)
    (hv1 : (ActionValidator.validate (ActionValidator.clamp_drag a1) cal).fst = true)
    (he1 : execAction (ActionValidator.clamp_drag a1) cal = true)
    (hfail : parseAction r2 = none ∨
      (∃ a2, parseAction r2 = some a2 ∧
        (ActionValidator.validate (ActionValidator.clamp_drag a2) cal).fst = false) ∨
      (∃ a2, parseAction r2 = some a2 ∧
        (ActionValidator.validate (ActionValidator.clamp_drag a2) cal).fst = true ∧
        execAction (ActionValidator.clamp_drag a2) cal = false)) :
    (execute_actions [r1, r2] cal true true none).undos = 1 ∧
    (execute_actions [r1, r2] cal true true none).error.isSome := by
  rcases hfail with h2 | ⟨a2, hp2, hv2⟩ | ⟨a2, hp2, hv2, he2⟩
  · simp [execute_actions, executeActionsAux, isStoppedAt, hp1, hv1, he1,
      h2, rollbackUndos]
  · simp [execute_actions, executeActionsAux, isStoppedAt, hp1, hv1, he1,
      hp2, hv2, rollbackUndos]
  · simp [execute_actions, executeActionsAux, isStoppedAt, hp1, hv1, he1,
      hp2, hv2, he2, rollbackUndos]

/-- Witness for C2: a successful drag followed by a set_slider that fails
to execute (no value) yields exactly one undo and a raised error. -/
theorem rollback_two_actions_witness :
    (execute_actions
      [{ type_ := some "drag", target := some "t" },
       { type_ := some "set_slider", target := some "t" }]
      (some { targets := [("t", { x := 1, y := 2 })] }) true true none).undos = 1 ∧
    (execute_actions
      [{ type_ := some "drag", target := some "t" },
       { type_ := some "set_slider", target := some "t" }]
      (some { targets := [("t", { x := 1, y := 2 })] }) true true none).error.isSome := by
  exact rollback_two_actions
    (some { targets := [("t", { x := 1, y := 2 })] })
    { type_ := some "drag", target := some "t" }
    { type_ := some "set_slider", target := some "t" }
    { type_ := some "drag", target := some "t" }
    (by decide) (by decide) (by decide)
    (Or.inr (Or.inr ⟨{ type_ := some "set_slider", target := some "t" },
      by decide, by decide, by decide⟩))

/-- Counterexample to C3: under the default `fail_fast=true`, an action of
unsupported type `"wiggle"` (with a known target) is not non-fatal: the
batch raises `E004` and rolls back the one previously executed action
(one undo), instead of proceeding with no error and no rollback. -/
theorem unsupported_type_nonfatal_cex :
    execute_actions
      [{ type_ := some "drag", target := some "t" },
       { type_ := some "wiggle", target := some "t" }]
      (some { targets := [("t", { x := 1, y := 2 })] }) true true none =
    { executed := [{ type_ := some "drag", target := some "t" }],
      undos := 1, error := some "E004: Action execution failed." } := by
  decide

/-- C3 (amended): an action of unsupported type is logged and skipped as a
failed execution: with `fail_fast=false` it is non-fatal — no error, no
rollback, execution proceeds to the next action — but under the default
`fail_fast=true` it raises `E004` and rolls back the already-executed
actions of the batch. -/
theorem unsupported_type_skip (cal : Option CalibrationProfile) (rb : Bool)
    (i : Nat) (executed : List Action) (undos : Nat) (r : RawPayload)
    (rest : List RawPayload) (a : Action)
    (hp : parseAction r = some a)
    (hd : a.type_ ≠ some "drag") (hs : a.type_ ≠ some "set_slider")
    (hk : a.type_ ≠ some "keypress") :
    executeActionsAux cal false rb none i executed undos (r :: rest) =
      executeActionsAux cal false rb none (i + 1) executed undos rest ∧
    executeActionsAux cal true rb none i executed undos (r :: rest) =
      { executed := executed, undos := undos + rollbackUndos executed rb,
        error := some "E004: Action execution failed." } := by
  have htype := clamp_drag_type a
  have hd' : (ActionValidator.clamp_drag a).type_ ≠ some "drag" := htype ▸ hd
  have hs' : (ActionValidator.clamp_drag a).type_ ≠ some "set_slider" := htype ▸ hs
  have hk' : (ActionValidator.clamp_drag a).type_ ≠ some "keypress" := htype ▸ hk
  have hv := validate_other_types (ActionValidator.clamp_drag a) cal hd' hk'
  have he := execAction_unsupported (ActionValidator.clamp_drag a) cal hd' hs' hk'
  constructor <;> simp [executeActionsAux, isStoppedAt, hp, hv, he]

/-- Witness for C3 (amended): a lone `"wiggle"` action is skipped without
error when `fail_fast=false` and raises `E004` when `fail_fast=true`. -/
theorem unsupported_type_skip_witness :
    executeActionsAux (some { targets := [("t", { x := 1, y := 2 })] })
        false true none 0 [] 0 [{ type_ := some "wiggle", target := some "t" }] =
      executeActionsAux (some { targets := [("t", { x := 1, y := 2 })] })
        false true none 1 [] 0 [] ∧
    executeActionsAux (some { targets := [("t", { x := 1, y := 2 })] })
        true true none 0 [] 0 [{ type_ := some "wiggle", target := some "t" }] =
      { executed := [], undos := 0 + rollbackUndos [] true,
        error := some "E004: Action execution failed." } := by
  exact unsupported_type_skip
    (some { targets := [("t", { x := 1, y := 2 })] }) true 0 [] 0
    { type_ := some "wiggle", target := some "t" } []
    { type_ := some "wiggle", target := some "t" }
    (by decide) (by decide) (by decide) (by decide)

/-- Helper: replacing the value stored under one key leaves the lookup of
every other key unchanged. -/
lemma lookup_setKey_ne (st : List (String × Rat)) (t k : String) (v : Rat)
    (h : t ≠ k) : (setKey st t v).lookup k = st.lookup k := by
  induction st with
  | nil => rfl
  | cons p rest ih =>
    obtain ⟨pk, pv⟩ := p
    have hstep : setKey ((pk, pv) :: rest) t v =
        (if pk = t then (t, v) else (pk, pv)) :: setKey rest t v := by
      simp [setKey]
    rw [hstep]
    by_cases hp : pk = t
    · rw [if_pos hp]
      subst hp
      have hkp : (k == pk) = false := by simp [Ne.symm h]
      simp [List.lookup, hkp, ih]
    · rw [if_neg hp]
      by_cases hkq : k = pk
      · subst hkq
        simp [List.lookup]
      · have hkp : (k == pk) = false := by simp [hkq]
        simp [List.lookup, hkp, ih]

/-- Counterexample to C4: if the executor is stopped after the first
action of a two-set_slider batch (so `execute_actions` returns normally
having executed only the first), the runner's update loop still rewrites
`current_state` for the second, never-executed set_slider: its `gamma`
entry changes from 1 to 7. -/
theorem state_update_ignores_execution_cex :
    (execute_actions
      [{ type_ := some "set_slider", target := some "lift", value := some 3 },
       { type_ := some "set_slider", target := some "gamma", value := some 7 }]
      (some { targets := [("lift", { x := 1, y := 2 }), ("gamma", { x := 3, y := 4 })] })
      true true (some 1)).executed =
      [{ type_ := some "set_slider", target := some "lift", value := some 3 }] ∧
    (execute_actions
      [{ type_ := some "set_slider", target := some "lift", value := some 3 },
       { type_ := some "set_slider", target := some "gamma", value := some 7 }]
      (some { targets := [("lift", { x := 1, y := 2 }), ("gamma", { x := 3, y := 4 })] })
      true true (some 1)).error = none ∧
    updateCurrentState [("lift", 0), ("gamma", 1)]
      [{ type_ := some "set_slider", target := some "lift", value := some 3 },
       { type_ := some "set_slider", target := some "gamma", value := some 7 }] =
      ([("lift", 3), ("gamma", 7)], false) := by
  refine ⟨by decide, by decide, by decide⟩

/-- C4 (amended): the runner's post-batch update is driven by the proposed
actions alone (the executed list returned by `execute_actions` is
discarded): every set_slider action whose target is already a
`current_state` key rewrites that entry with its proposed value, executed
or not, while entries whose key is not the target of any set_slider action
in the batch are left unchanged. -/
theorem state_update_proposed_actions :
    (∀ (current : List (String × Rat)) (raws : List RawPayload) (k : String),
      (∀ r ∈ raws, ¬(rawGetType r = some "set_slider" ∧ rawGetTarget r = some k)) →
      ((updateCurrentState current raws).fst.lookup k = current.lookup k)) ∧
    (∀ (current : List (String × Rat)) (raws : List RawPayload) (r : RawPayload)
      (t : String) (v : Rat),
      rawGetType r = some "set_slider" → rawGetTarget r = some t →
      containsKey current t = true → r.value = some v →
      updateCurrentState current (r :: raws) =
        updateCurrentState (setKey current t v) raws) := by
  constructor
  · intro current raws
    induction raws generalizing current with
    | nil => intro k _; rfl
    | cons r rest ih =>
      intro k hnone
      have hr := hnone r (List.mem_cons_self r rest)
      have hrest : ∀ x ∈ rest, ¬(rawGetType x = some "set_slider" ∧
          rawGetTarget x = some k) :=
        fun x hx => hnone x (List.mem_cons_of_mem r hx)
      cases ht : rawGetTarget r with
      | none => simpa [updateCurrentState, ht] using ih current k hrest
      | some t =>
        by_cases hcond : rawGetType r = some "set_slider" ∧ containsKey current t = true
        · have htk : t ≠ k := by
            intro he
            exact hr ⟨hcond.1, he ▸ ht⟩
          cases hv : r.value with
          | none => simp [updateCurrentState, ht, hcond.1, hcond.2, hv]
          | some v =>
            have := ih (setKey current t v) k hrest
            simp only [updateCurrentState, ht, hcond.1, hcond.2, hv]
            simp only [and_self, if_true, this]
            exact lookup_setKey_ne current t k v htk
        · rcases Classical.em (rawGetType r = some "set_slider") with hty | hty
          · have hct : containsKey current t = false := by
              rcases Classical.em (containsKey current t = true) with hc | hc
              · exact absurd ⟨hty, hc⟩ hcond
              · simpa using hc
            simpa [updateCurrentState, ht, hty, hct] using ih current k hrest
          · simpa [updateCurrentState, ht, hty] using ih current k hrest
  · intro current raws r t v hty ht hc hv
    simp [updateCurrentState, ht, hty, hc, hv]

/-- Witness for C4 (amended): an entry not targeted by any set_slider in
the batch survives unchanged, and a set_slider targeting an existing key
rewrites it with the proposed value. -/
theorem state_update_proposed_actions_witness :
    ((updateCurrentState [("lift", 0)]
        [{ type_ := some "drag", target := some "lift", dx := some 5 }]).fst.lookup "lift"
      = ([("lift", (0 : Rat))].lookup "lift")) ∧
    updateCurrentState [("gamma", 1)]
        [{ type_ := some "set_slider", target := some "gamma", value := some 7 }] =
      updateCurrentState (setKey [("gamma", 1)] "gamma" 7) [] := by
  constructor
  · exact state_update_proposed_actions.1 [("lift", 0)]
      [{ type_ := some "drag", target := some "lift", dx := some 5 }] "lift"
      (by decide)
  · exact state_update_proposed_actions.2 [("gamma", 1)] []
      { type_ := some "set_slider", target := some "gamma", value := some 7 }
      "gamma" 7 (by decide) (by decide) (by decide) (by decide)

end DRAgent
